import Mathlib

/-!
Verification of the HexShare access-control and capability-token core.

The definitions below are a shallow embedding of the Python sources:
- app/core/authz.py                                (HEXIAMAction bit flags)
- app/adapters/policy_evaluator/hex_iam_policy.py  (HexIamBitmaskEvaluator)
- app/adapters/authz/claims.py                     (ClaimsAuthorizer)
- app/adapters/auth/hex_iam.py                     (HEXIAMAuthenticator)
- app/adapters/access_control/edge.py              (EdgeAccessControl)
- app/adapters/access_control/pdp.py               (PDPAccessControl)
- app/adapters/access_control/hybrid.py            (HybridAccessControl)
- app/adapters/jwt_token.py                        (JWTTokenAdapter)
- app/auth/share_token_auth.py                     (ShareTokenDependency)

Python strings are modelled as Lean String; Python datetimes as unix
seconds (Int); Python dicts as association lists with first-match lookup;
raised exceptions as Except errors.  Python string methods upper, split
with a separator, and split without arguments are re-implemented below by
structural recursion over the character list so that concrete instances
reduce inside the kernel.
-/

namespace HexShare

/-- Model of Python str.upper on the ASCII strings used by the code
(action names, claim keys): uppercase every character. -/
def pyUpper (s : String) : String :=
  String.mk (s.data.map Char.toUpper)

/-- Helper for the Python split models: cut a character list at every
character satisfying p, keeping empty fragments (Python keeps them for
s.split(sep)).  acc holds the current fragment reversed. -/
def pySplitAux (p : Char → Bool) : List Char → List Char → List String
  | [], acc => [String.mk acc.reverse]
  | c :: rest, acc =>
    if p c then String.mk acc.reverse :: pySplitAux p rest []
    else pySplitAux p rest (c :: acc)

/-- Model of Python s.split(" "): split at every single space, keeping
empty fragments; the empty string yields [""]. -/
def pySplitOnSpace (s : String) : List String :=
  pySplitAux (fun c => c == ' ') s.data []

/-- Model of Python s.split() with no argument: split on whitespace runs
and drop empty fragments; the empty string yields []. -/
def pySplitWhitespace (s : String) : List String :=
  (pySplitAux (fun c => c.isWhitespace) s.data []).filter (fun t => !(t == ""))

/-- Python dict with string keys, modelled as an association list with
first-match lookup.  The code only observes dicts through get, key
membership, item assignment and the purge filter, all defined below. -/
abbrev PyDict (α : Type) := List (String × α)

/-- Model of dict.get(k): first value stored under k, if any. -/
def PyDict.get {α : Type} : PyDict α → String → Option α
  | [], _ => none
  | (k2, v) :: rest, k => if k2 == k then some v else PyDict.get rest k

/-- Model of dict.get(k, d): lookup with a default. -/
def PyDict.getD {α : Type} (d : PyDict α) (k : String) (dflt : α) : α :=
  (d.get k).getD dflt

/-- Model of the Python membership test k in dict. -/
def PyDict.contains {α : Type} (d : PyDict α) (k : String) : Bool :=
  (d.get k).isSome

/-- Model of dict item assignment d[k] = v: afterwards k maps to v and
every other key is unchanged.  (Insertion order is not observed by any
operation modelled here.) -/
def PyDict.set {α : Type} (d : PyDict α) (k : String) (v : α) : PyDict α :=
  (k, v) :: d.filter (fun kv => !(kv.1 == k))

/-- Model of Python x or "" for an optional string claim: None becomes
the empty string (and the empty string is already falsy, so it maps to
itself). -/
def pyOrStr : Option String → String
  | none => ""
  | some s => s

/-- Model of Python policy or \x7b\x7d for an optional policy mapping:
None becomes the empty dict. -/
def pyOrPolicy : Option (PyDict Int) → PyDict Int
  | none => []
  | some d => d

/-- Model of the Python expression (x,) if x else tuple() applied to an
optional role string: None and the empty string are falsy and give the
empty tuple. -/
def pyRoleTuple : Option String → List String
  | none => []
  | some r => if r == "" then [] else [r]

/-- app/core/authz.py: class HEXIAMAction(IntFlag) with 12 members, one
bit per action. -/
inductive HEXIAMAction
  | READ
  | WRITE
  | DELETE
  | APPROVE
  | REJECT
  | EXECUTE
  | ASSIGN
  | MANAGE
  | EXPORT
  | IMPORT
  | ACTIVATE
  | ARCHIVE
deriving DecidableEq, BEq, Repr

/-- Bit value of each HEXIAMAction member (source: 1 shifted left by 0
through 11). -/
def HEXIAMAction.value : HEXIAMAction → Int
  | .READ => 1
  | .WRITE => 2
  | .DELETE => 4
  | .APPROVE => 8
  | .REJECT => 16
  | .EXECUTE => 32
  | .ASSIGN => 64
  | .MANAGE => 128
  | .EXPORT => 256
  | .IMPORT => 512
  | .ACTIVATE => 1024
  | .ARCHIVE => 2048

/-- Model of the membership test key in HEXIAMAction.__members__ together
with the index HEXIAMAction[key]: the twelve member names map to their
members, every other string to none. -/
def HEXIAMAction.ofName (key : String) : Option HEXIAMAction :=
  if key == "READ" then some .READ
  else if key == "WRITE" then some .WRITE
  else if key == "DELETE" then some .DELETE
  else if key == "APPROVE" then some .APPROVE
  else if key == "REJECT" then some .REJECT
  else if key == "EXECUTE" then some .EXECUTE
  else if key == "ASSIGN" then some .ASSIGN
  else if key == "MANAGE" then some .MANAGE
  else if key == "EXPORT" then some .EXPORT
  else if key == "IMPORT" then some .IMPORT
  else if key == "ACTIVATE" then some .ACTIVATE
  else if key == "ARCHIVE" then some .ARCHIVE
  else none

/-- Model of policy.get(resource, 0) in the evaluator, where resource may
be None (ClaimsAuthorizer passes resource_id straight through, and a
string-keyed dict never holds the key None, so the default 0 applies).
The int(... or 0) wrapper in the source maps a stored 0 to 0 and any
other stored int to itself, hence it is the identity on this model. -/
def policyGet (policy : PyDict Int) (resource : Option String) : Int :=
  match resource with
  | none => 0
  | some r => policy.getD r 0

/-- app/adapters/policy_evaluator/hex_iam_policy.py,
HexIamBitmaskEvaluator.evaluate: look up the resource bitmask (default
0), uppercase the action, deny unknown action names, otherwise test the
required bit with Python &, modelled by Int.land. -/
def HexIamBitmaskEvaluator.evaluate (policy : PyDict Int) (action : String)
    (resource : Option String) : Bool :=
  let bitmask : Int := policyGet policy resource
  let key : String := pyUpper action
  match HEXIAMAction.ofName key with
  | none => false
  | some act => Int.land bitmask act.value == act.value

/-- Failure kinds raised by the modelled jwt library and by the share
token adapter.  PyJWT raises the distinct exception classes
ExpiredSignatureError, DecodeError and InvalidSignatureError; the
revocation branch of decode_share_token raises the plain
InvalidTokenError class with the message "Token has been revoked", a
class and message distinct from the other three, so the four kinds are
distinguishable by a caller. -/
inductive JwtError
  | expired
  | malformed
  | signatureInvalid
  | revoked
deriving DecidableEq, BEq, Repr

/-- Exceptions raised by the access-control code paths. -/
inductive PyExc
  | accessDenied (reason : String)
  | authorizationError (reason : String)
  | authenticationError (e : JwtError)
  | attributeError
deriving DecidableEq, BEq, Repr

/-- app/ports/authn.py: frozen dataclass Principal.  Field values come
from dict.get calls in the authenticators, so every field can be None;
datetimes are unix seconds.  The open pass-through attribute bag claims
(Mapping[str, Any]) is not modelled: no operation verified here reads
it. -/
structure Principal where
  tenant_id : Option String
  subject : Option String
  user_id : Option String
  client_id : Option String
  token_use : Option String
  roles : List String
  scopes : List String
  policy : Option (PyDict Int)
  jti : Option String
  issued_at : Option Int
  expires_at : Option Int
  issuer : Option String
  audience : Option String
deriving DecidableEq, Repr

/-- app/ports/access_control.py: frozen dataclass ResourceCtx. -/
structure ResourceCtx where
  type : String
  id : Option String
  attrs : Option (PyDict String)
deriving DecidableEq, Repr

/-- app/adapters/authz/claims.py, ClaimsAuthorizer.authorize: run the
injected policy evaluator on principal.policy or \x7b\x7d and raise
AuthorizationError("forbidden") when it denies.  The evaluator is the
constructor-injected PolicyEvaluatorPort, passed here as a function
argument. -/
def ClaimsAuthorizer.authorize
    (evaluate : PyDict Int → String → Option String → Bool)
    (principal : Principal) (action : String) (resource_id : Option String) :
    Except PyExc Unit :=
  let ok := evaluate (pyOrPolicy principal.policy) action resource_id
  if ok then Except.ok ()
  else Except.error (PyExc.authorizationError "forbidden")

/-- app/adapters/access_control/edge.py, EdgeAccessControl.authorize:
authenticate the bearer token, then call the authorizer with
resource.id.  The attribute access resource.id is evaluated on the
resource argument directly; when resource is None it raises
AttributeError before the authorizer is ever consulted.  The
authenticator and authorizer ports are constructor-injected and passed
here as function arguments. -/
def EdgeAccessControl.authorize
    (authenticate : String → Except PyExc Principal)
    (authorizerAuthorize : Principal → String → Option String → Except PyExc Unit)
    (bearer_token : String) (action : String) (resource : Option ResourceCtx) :
    Except PyExc Principal :=
  match authenticate bearer_token with
  | Except.error e => Except.error e
  | Except.ok principal =>
    match resource with
    | none => Except.error PyExc.attributeError
    | some r =>
      match authorizerAuthorize principal action r.id with
      | Except.error e => Except.error e
      | Except.ok _ => Except.ok principal

/-- Truthiness of principal.policy in Python: None and the empty dict
are falsy. -/
def policyTruthy : Option (PyDict Int) → Bool
  | none => false
  | some d => !d.isEmpty

/-- app/adapters/access_control/hybrid.py, HybridAccessControl.authorize.
The edge and pdp ports are constructor-injected; for a fixed input each
contributes one outcome, passed here as a value.  The try block runs
edge, raises AccessDenied("edge_missing_policy") when the principal has
no truthy policy, and returns the principal otherwise; except Exception
returns the pdp outcome.  The second component counts how many times
pdp.authorize was awaited. -/
def HybridAccessControl.authorize
    (edgeResult : Except PyExc Principal) (pdpResult : Except PyExc Principal) :
    Except PyExc Principal × Nat :=
  let tryBlock : Except PyExc Principal :=
    match edgeResult with
    | Except.error e => Except.error e
    | Except.ok principal =>
      if !policyTruthy principal.policy then
        Except.error (PyExc.accessDenied "edge_missing_policy")
      else Except.ok principal
  match tryBlock with
  | Except.ok principal => (Except.ok principal, 0)
  | Except.error _ => (pdpResult, 1)

/-- Shape of the principal object inside the JSON decision response of
the PDP (every field read through dict.get, so optional). -/
structure PdpPrincipalJson where
  tenant_id : Option String
  user_id : Option String
  client_id : Option String
  token_use : Option String
  sub : Option String
  scope : Option String
  role : Option String
  iss : Option String
  aud : Option String
  iat : Option Int
  exp : Option Int
  policy : Option (PyDict Int)
  jti : Option String
deriving DecidableEq, Repr

/-- Body of the JSON decision response: data.get("allow", False),
data.get("reason", "forbidden") and data.get("principal") or \x7b\x7d. -/
structure PdpBody where
  allow : Bool
  reason : Option String
  principal : Option PdpPrincipalJson
deriving DecidableEq, Repr

/-- HTTP response of POST /pdp/decide as observed by PDPAccessControl:
a status code and the parsed JSON body. -/
structure HttpResponse where
  status : Nat
  body : PdpBody
deriving DecidableEq, Repr

/-- Model of data.get("reason", "forbidden"). -/
def pyOrReason : Option String → String
  | none => "forbidden"
  | some r => r

/-- Model of data.get("principal") or \x7b\x7d: a missing principal
object behaves like one whose every field reads as None. -/
def pyOrPdpPrincipal : Option PdpPrincipalJson → PdpPrincipalJson
  | none =>
    { tenant_id := none, user_id := none, client_id := none,
      token_use := none, sub := none, scope := none, role := none,
      iss := none, aud := none, iat := none, exp := none,
      policy := none, jti := none }
  | some p => p

/-- app/adapters/access_control/pdp.py, the normalization of the remote
principal into the local Principal shape: whitespace-split the scope
string, wrap a truthy role string as a one-element tuple, default the
policy to the empty dict. -/
def PDPAccessControl.normalizePrincipal (p : PdpPrincipalJson) : Principal :=
  { tenant_id := p.tenant_id,
    user_id := p.user_id,
    client_id := p.client_id,
    token_use := p.token_use,
    subject := p.sub,
    scopes := pySplitWhitespace (pyOrStr p.scope),
    roles := pyRoleTuple p.role,
    issuer := p.iss,
    audience := p.aud,
    issued_at := p.iat,
    expires_at := p.exp,
    policy := some (pyOrPolicy p.policy),
    jti := p.jti }

/-- app/adapters/access_control/pdp.py, PDPAccessControl.authorize after
the HTTP round trip: a status of 400 or above raises AccessDenied with
the f-string "PDP error: \x7bstatus\x7d" before the body is read; then a
body without allow=true raises AccessDenied with the body reason
(default "forbidden"); otherwise the normalized principal is returned. -/
def PDPAccessControl.handleResponse (resp : HttpResponse) :
    Except PyExc Principal :=
  if 400 ≤ resp.status then
    Except.error (PyExc.accessDenied ("PDP error: " ++ toString resp.status))
  else if !resp.body.allow then
    Except.error (PyExc.accessDenied (pyOrReason resp.body.reason))
  else
    Except.ok (PDPAccessControl.normalizePrincipal (pyOrPdpPrincipal resp.body.principal))

/-- Shape of a decoded HexIAM access-token payload as read by
HEXIAMAuthenticator.authenticate (every claim via dict.get). -/
structure IamTokenPayload where
  tenant_id : Option String
  user_id : Option String
  client_id : Option String
  token_use : Option String
  sub : Option String
  scope : Option String
  role : Option String
  iss : Option String
  aud : Option String
  iat : Option Int
  exp : Option Int
  policy : Option (PyDict Int)
  jti : Option String
deriving DecidableEq, Repr

/-- app/adapters/auth/hex_iam.py, HEXIAMAuthenticator.authenticate after
jwt.decode succeeded: map the token payload into a Principal, splitting
the scope string with Python str.split(" ") (single-space separator,
empty fragments kept). -/
def HEXIAMAuthenticator.toPrincipal (payload : IamTokenPayload) : Principal :=
  let scopes_str := pyOrStr payload.scope
  { tenant_id := payload.tenant_id,
    user_id := payload.user_id,
    client_id := payload.client_id,
    token_use := payload.token_use,
    subject := payload.sub,
    scopes := pySplitOnSpace scopes_str,
    roles := pyRoleTuple payload.role,
    issuer := payload.iss,
    audience := payload.aud,
    issued_at := payload.iat,
    expires_at := payload.exp,
    policy := payload.policy,
    jti := payload.jti }

/-- Claim set of a share token as built by encode_share_token in
app/adapters/jwt_token.py: sub carries the document id, tid the tenant,
lid the link, exp the unix-seconds expiry. -/
structure SharePayload where
  sub : String
  tid : String
  lid : String
  jti : String
  exp : Int
  perms : PyDict Bool
  require_email : Bool
deriving DecidableEq, Repr

/-- Wire token produced by jwt.encode with HS256: a tamper-evident
signed payload.  A string that is not a well-formed JWT is modelled by
the second constructor. -/
inductive Token
  | signed (payload : SharePayload) (secret : String)
  | malformedToken (raw : String)
deriving DecidableEq, Repr

/-- Model of jwt.decode(token, secret, algorithms=["HS256"]): malformed
input raises DecodeError, a signature made with a different secret
raises InvalidSignatureError, an exp claim at or before now raises
ExpiredSignatureError (PyJWT treats exp less than or equal to now as
expired), and otherwise the payload is returned. -/
def jwtDecode (token : Token) (secret : String) (now : Int) :
    Except JwtError SharePayload :=
  match token with
  | Token.malformedToken _ => Except.error JwtError.malformed
  | Token.signed payload tokenSecret =>
    if !(tokenSecret == secret) then Except.error JwtError.signatureInvalid
    else if payload.exp ≤ now then Except.error JwtError.expired
    else Except.ok payload

/-- app/adapters/jwt_token.py: the adapter holds the signing secret and
the in-memory revocation ledger _revoked_jtis mapping a jti to the
revocation expiry (unix seconds). -/
structure JWTTokenAdapter where
  secret : String
  revoked_jtis : PyDict Int
deriving DecidableEq, Repr

/-- JWTTokenAdapter.encode_share_token: build the payload dict and sign
it with the adapter secret.  expires_at is already in unix seconds, so
the int(timestamp()) conversion is the identity here. -/
def JWTTokenAdapter.encode_share_token (a : JWTTokenAdapter)
    (tenant_id document_id link_id jti : String) (expires_at : Int)
    (permissions : PyDict Bool) (require_email : Bool) : Token :=
  Token.signed
    { sub := document_id, tid := tenant_id, lid := link_id, jti := jti,
      exp := expires_at, perms := permissions, require_email := require_email }
    a.secret

/-- The lazy sweep inside decode_share_token: drop every ledger entry
whose expiry is at or before now (the source collects keys with
exp <= now and pops them). -/
def purgeLedger (d : PyDict Int) (now : Int) : PyDict Int :=
  d.filter (fun kv => !(kv.2 ≤ now))

/-- JWTTokenAdapter.decode_share_token: verify signature and expiry via
jwt.decode (a failure there propagates before the ledger is touched),
then purge expired ledger entries, then raise the revoked error when the
payload jti is still present; the state after the call carries the
purged ledger. -/
def JWTTokenAdapter.decode_share_token (a : JWTTokenAdapter) (token : Token)
    (now : Int) : Except JwtError SharePayload × JWTTokenAdapter :=
  match jwtDecode token a.secret now with
  | Except.error e => (Except.error e, a)
  | Except.ok payload =>
    let purged := purgeLedger a.revoked_jtis now
    if PyDict.contains purged payload.jti then
      (Except.error JwtError.revoked, { a with revoked_jtis := purged })
    else
      (Except.ok payload, { a with revoked_jtis := purged })

/-- JWTTokenAdapter.revoke_jti: dict assignment of expires_at under
jti. -/
def JWTTokenAdapter.revoke_jti (a : JWTTokenAdapter) (jti : String)
    (expires_at : Int) : JWTTokenAdapter :=
  { a with revoked_jtis := PyDict.set a.revoked_jtis jti expires_at }

/-- app/auth/share_token_auth.py: dataclass ShareTokenClaims.  The three
identifier fields go through an or-chain of dict.get calls, so they can
end up None; jti and exp are always present in a share payload. -/
structure ShareTokenClaims where
  tenant_id : Option String
  document_id : Option String
  link_id : Option String
  jti : String
  expires_at : Int
  permissions : PyDict Bool
  require_email : Bool
  email : Option String
deriving DecidableEq, Repr

/-- fastapi.HTTPException as observed here: a status code and a detail
string. -/
structure HTTPExceptionModel where
  status_code : Nat
  detail : String
deriving DecidableEq, Repr

/-- Model of claims.get("tid") or claims.get("tenant_id") (and the sub
and lid analogues): a share payload carries no tenant_id, document_id or
link_id keys, so the chain yields the first field when it is truthy and
None when it is the empty string. -/
def pyStrOrNone (s : String) : Option String :=
  if s == "" then none else some s

/-- app/auth/share_token_auth.py, ShareTokenDependency.__call__: any
exception from decode_share_token becomes
HTTPException(401, "Invalid or expired share token"); on success the
claims dataclass is filled from the payload (claims.get("email") is
always absent in a share payload). -/
def ShareTokenDependency.call (a : JWTTokenAdapter) (token : Token)
    (now : Int) : Except HTTPExceptionModel ShareTokenClaims :=
  match (a.decode_share_token token now).1 with
  | Except.error _ =>
    Except.error { status_code := 401, detail := "Invalid or expired share token" }
  | Except.ok claims =>
    Except.ok
      { tenant_id := pyStrOrNone claims.tid,
        document_id := pyStrOrNone claims.sub,
        link_id := pyStrOrNone claims.lid,
        jti := claims.jti,
        expires_at := claims.exp,
        permissions := claims.perms,
        require_email := claims.require_email,
        email := none }

-- Decidable equality on exception-or-value results, used to evaluate
-- concrete runs inside witnesses.
deriving instance DecidableEq for Except

/-- Fixture: the IAM token payload with every claim absent. -/
def emptyIamPayload : IamTokenPayload :=
  { tenant_id := none, user_id := none, client_id := none,
    token_use := none, sub := none, scope := none, role := none,
    iss := none, aud := none, iat := none, exp := none,
    policy := none, jti := none }

/-- Fixture: the decision response of concrete scenario C in the spec,
HTTP 403 with body allow=false, reason="scope_missing". -/
def scenarioCResponse : HttpResponse :=
  { status := 403,
    body := { allow := false, reason := some "scope_missing", principal := none } }

/-- Fixture: a share payload used by witnesses, expiring at 200. -/
def testPayload : SharePayload :=
  { sub := "doc_9", tid := "ten_1", lid := "lnk_4", jti := "jti_7",
    exp := 200, perms := [("download", true), ("print", false)],
    require_email := false }

/-- Fixture: a principal with a non-empty embedded policy, used by
witnesses. -/
def testPrincipal : Principal :=
  { tenant_id := some "ten_1", subject := some "user_1",
    user_id := some "u_1", client_id := none, token_use := some "access",
    roles := ["admin"], scopes := ["docs.read"],
    policy := some [("doc_1", 3)], jti := some "jid_1",
    issued_at := some 10, expires_at := some 1000,
    issuer := some "hexiam", audience := some "hexshare" }

/-- Fixture: a principal whose embedded policy is an empty dict, used by
witnesses. -/
def emptyPolicyPrincipal : Principal :=
  { testPrincipal with policy := some [] }

/-- Lookup misses when no entry of the dict carries the key. -/
theorem PyDict.get_eq_none_of_keys_ne {α : Type} (L : PyDict α) (k : String)
    (h : ∀ kv ∈ L, (kv.1 == k) = false) : PyDict.get L k = none := by
  induction L with
  | nil => rfl
  | cons hd tl ih =>
    have hhd := h hd (by simp)
    have htl := ih (fun kv hkv => h kv (by simp [hkv]))
    cases hd with
    | mk k2 v =>
      simp only [PyDict.get]
      simp only at hhd
      simp [hhd, htl]

/-- Membership is false when no entry of the dict carries the key. -/
theorem PyDict.contains_eq_false_of_keys_ne {α : Type} (L : PyDict α) (k : String)
    (h : ∀ kv ∈ L, (kv.1 == k) = false) : PyDict.contains L k = false := by
  simp [PyDict.contains, PyDict.get_eq_none_of_keys_ne L k h]

/-- Membership holds at the head key of a dict. -/
theorem PyDict.contains_cons_self {α : Type} (k : String) (v : α) (rest : PyDict α) :
    PyDict.contains ((k, v) :: rest) k = true := by
  simp [PyDict.contains, PyDict.get]

/-- After assigning a revocation expiry still in the future, the purge
keeps the entry and membership holds. -/
theorem contains_purge_set_eq_true (L : PyDict Int) (k : String) (v now : Int)
    (h : now < v) :
    PyDict.contains (purgeLedger (PyDict.set L k v) now) k = true := by
  simp only [purgeLedger, PyDict.set, List.filter_cons]
  have hkeep : (!decide (v ≤ now)) = true := by simp [not_le.mpr h]
  simp only [hkeep, if_pos rfl]
  exact PyDict.contains_cons_self k v _

/-- After assigning a revocation expiry at or before now, the purge
drops every entry under the key and membership fails. -/
theorem contains_purge_set_eq_false (L : PyDict Int) (k : String) (v now : Int)
    (h : v ≤ now) :
    PyDict.contains (purgeLedger (PyDict.set L k v) now) k = false := by
  apply PyDict.contains_eq_false_of_keys_ne
  intro kv hkv
  simp only [purgeLedger, PyDict.set] at hkv
  have h1 := List.mem_filter.mp hkv
  rcases List.mem_cons.mp h1.1 with hhd | htl
  · subst hhd
    have := h1.2
    simp [h] at this
  · have h2 := List.mem_filter.mp htl
    simpa using h2.2

/-- Claim C1: for every bearer token, action, resource and context, with
the edge and pdp outcomes for that input given as values: if Edge
succeeds and the returned Principal carries a non-empty policy, Hybrid
returns that Edge principal and the PDP invocation count is 0; if Edge
raises any exception, or succeeds with an empty or absent policy, the
PDP outcome (principal or exception) is returned or raised verbatim with
invocation count exactly 1 — no retry, no further fallback. -/
theorem hybrid_edge_pdp_fallback (edgeResult pdpResult : Except PyExc Principal) :
    (∀ p, edgeResult = Except.ok p → policyTruthy p.policy = true →
      HybridAccessControl.authorize edgeResult pdpResult = (Except.ok p, 0))
    ∧ (∀ p, edgeResult = Except.ok p → policyTruthy p.policy = false →
      HybridAccessControl.authorize edgeResult pdpResult = (pdpResult, 1))
    ∧ (∀ e, edgeResult = Except.error e →
      HybridAccessControl.authorize edgeResult pdpResult = (pdpResult, 1)) := by
  refine ⟨?_, ?_, ?_⟩
  · intro p hedge hpol
    subst hedge
    simp [HybridAccessControl.authorize, hpol]
  · intro p hedge hpol
    subst hedge
    simp [HybridAccessControl.authorize, hpol]
  · intro e hedge
    subst hedge
    simp [HybridAccessControl.authorize]

/-- Witness for C1: an edge success with policy doc_1 maps to 3 is
returned as is, with zero PDP invocations, even when PDP would fail. -/
theorem hybrid_edge_pdp_fallback_witness :
    HybridAccessControl.authorize (Except.ok testPrincipal)
        (Except.error (PyExc.accessDenied "pdp_down"))
      = (Except.ok testPrincipal, 0) :=
  (hybrid_edge_pdp_fallback (Except.ok testPrincipal)
      (Except.error (PyExc.accessDenied "pdp_down"))).1
    testPrincipal rfl (by decide)

/-- Claim C2: evaluate is true iff the action, uppercased, names one of
the 12 HEXIAMAction members and the resource bitmask (default 0 when
the resource is absent from the policy) contains the required bit; any
unrecognized action evaluates to false (and the function is total, so
no exception is possible); with policy doc_1 maps to 3, write on doc_1
is allowed and delete on doc_1 is denied. -/
theorem bitmask_evaluate_spec (policy : PyDict Int) (action resource : String) :
    (HexIamBitmaskEvaluator.evaluate policy action (some resource) = true ↔
      ∃ act : HEXIAMAction, HEXIAMAction.ofName (pyUpper action) = some act ∧
        Int.land (policyGet policy (some resource)) act.value = act.value)
    ∧ (HEXIAMAction.ofName (pyUpper action) = none →
      HexIamBitmaskEvaluator.evaluate policy action (some resource) = false)
    ∧ HexIamBitmaskEvaluator.evaluate [("doc_1", 3)] "write" (some "doc_1") = true
    ∧ HexIamBitmaskEvaluator.evaluate [("doc_1", 3)] "delete" (some "doc_1") = false := by
  refine ⟨?_, ?_, by decide, by decide⟩
  · cases hof : HEXIAMAction.ofName (pyUpper action) with
    | none => simp [HexIamBitmaskEvaluator.evaluate, hof]
    | some act => simp [HexIamBitmaskEvaluator.evaluate, hof]
  · intro hof
    simp [HexIamBitmaskEvaluator.evaluate, hof]

/-- Witness for C2: the unrecognized action fly is denied without an
exception. -/
theorem bitmask_evaluate_spec_witness :
    HexIamBitmaskEvaluator.evaluate [("doc_1", 3)] "fly" (some "doc_1") = false :=
  (bitmask_evaluate_spec [("doc_1", 3)] "fly" "doc_1").2.1 (by decide)

/-- Claim C7: ClaimsAuthorizer.authorize raises
AuthorizationError("forbidden") exactly when the injected policy
evaluator denies the principal-embedded policy (an absent policy read as
the empty mapping), and returns normally otherwise; the function is pure
in the principal and keeps no state, so the principal is unchanged and
no identity re-verification happens. -/
theorem claims_authorizer_spec
    (evaluate : PyDict Int → String → Option String → Bool)
    (principal : Principal) (action : String) (resource_id : Option String) :
    (ClaimsAuthorizer.authorize evaluate principal action resource_id
        = Except.error (PyExc.authorizationError "forbidden")
      ↔ evaluate (pyOrPolicy principal.policy) action resource_id = false)
    ∧ (ClaimsAuthorizer.authorize evaluate principal action resource_id
        = Except.ok ()
      ↔ evaluate (pyOrPolicy principal.policy) action resource_id = true) := by
  cases hb : evaluate (pyOrPolicy principal.policy) action resource_id with
  | true => simp [ClaimsAuthorizer.authorize, hb]
  | false => simp [ClaimsAuthorizer.authorize, hb]

/-- Claim C8: a token whose scope claim is absent (or the empty string)
gives the local HEXIAM authenticator a one-element scope tuple holding
the empty string, while the PDP normalization of the same claim gives
the empty tuple; the two paths disagree on this edge case. -/
theorem empty_scope_divergence :
    (HEXIAMAuthenticator.toPrincipal emptyIamPayload).scopes = [""]
    ∧ (HEXIAMAuthenticator.toPrincipal
        { emptyIamPayload with scope := some "" }).scopes = [""]
    ∧ (PDPAccessControl.normalizePrincipal (pyOrPdpPrincipal none)).scopes = []
    ∧ (PDPAccessControl.normalizePrincipal
        (pyOrPdpPrincipal (some { (pyOrPdpPrincipal none) with scope := some "" }))).scopes = []
    ∧ (([""] : List String) == ([] : List String)) = false := by
  decide

/-- Claim C9: EdgeAccessControl.authorize with resource = None never
returns a principal: whatever the authenticator and authorizer do, the
call fails, and whenever the bearer token authenticates successfully the
failure is the AttributeError raised by reading resource.id on None. -/
theorem edge_none_resource_raises
    (authenticate : String → Except PyExc Principal)
    (authorizerAuthorize : Principal → String → Option String → Except PyExc Unit)
    (bearer_token action : String) :
    (∀ p, EdgeAccessControl.authorize authenticate authorizerAuthorize
        bearer_token action none ≠ Except.ok p)
    ∧ (∀ p, authenticate bearer_token = Except.ok p →
      EdgeAccessControl.authorize authenticate authorizerAuthorize
          bearer_token action none = Except.error PyExc.attributeError) := by
  constructor
  · intro p
    cases h : authenticate bearer_token with
    | error e => simp [EdgeAccessControl.authorize, h]
    | ok q => simp [EdgeAccessControl.authorize, h]
  · intro p hp
    simp [EdgeAccessControl.authorize, hp]

/-- Witness for C9: a valid token and a permissive authorizer still end
in AttributeError when the resource argument is None. -/
theorem edge_none_resource_raises_witness :
    EdgeAccessControl.authorize (fun _ => Except.ok testPrincipal)
        (fun _ _ _ => Except.ok ()) "bearer" "read" none
      = Except.error PyExc.attributeError :=
  (edge_none_resource_raises (fun _ => Except.ok testPrincipal)
      (fun _ _ _ => Except.ok ()) "bearer" "read").2 testPrincipal rfl

/-- Claim C3: after revoke_jti jti exp, decoding any well-formed,
unexpired token carrying that jti fails with the revoked error while
now < exp; once exp ≤ now, the next decode purges the ledger entry, the
decode succeeds on the strength of signature and expiry alone, and the
purged entry is gone from the resulting ledger state, so it can never
block again. -/
theorem revocation_blocks_then_purges (a : JWTTokenAdapter) (p : SharePayload)
    (jti : String) (exp now : Int) (hjti : p.jti = jti) (hexp : now < p.exp) :
    (now < exp →
      ((a.revoke_jti jti exp).decode_share_token (Token.signed p a.secret) now).1
        = Except.error JwtError.revoked)
    ∧ (exp ≤ now →
      ((a.revoke_jti jti exp).decode_share_token (Token.signed p a.secret) now).1
        = Except.ok p
      ∧ PyDict.contains
          ((a.revoke_jti jti exp).decode_share_token (Token.signed p a.secret) now).2.revoked_jtis
          jti = false) := by
  subst hjti
  have hnle : ¬ p.exp ≤ now := not_le.mpr hexp
  constructor
  · intro hlive
    have hc := contains_purge_set_eq_true a.revoked_jtis p.jti exp now hlive
    simp [JWTTokenAdapter.decode_share_token, JWTTokenAdapter.revoke_jti,
      jwtDecode, hnle, hc]
  · intro hdead
    have hc := contains_purge_set_eq_false a.revoked_jtis p.jti exp now hdead
    constructor
    · simp [JWTTokenAdapter.decode_share_token, JWTTokenAdapter.revoke_jti,
        jwtDecode, hnle, hc]
    · simp [JWTTokenAdapter.decode_share_token, JWTTokenAdapter.revoke_jti,
        jwtDecode, hnle, hc]

/-- Witness for C3: with revocation expiry 100, decode at time 50 of a
token expiring at 200 fails revoked. -/
theorem revocation_blocks_then_purges_witness :
    ((JWTTokenAdapter.revoke_jti ⟨"sec", []⟩ "jti_7" 100).decode_share_token
        (Token.signed testPayload "sec") 50).1 = Except.error JwtError.revoked :=
  (revocation_blocks_then_purges ⟨"sec", []⟩ testPayload "jti_7" 100 50
    rfl (by decide)).1 (by decide)

/-- Claim C4: decoding the token produced by encode_share_token before
expires_at, when the jti has no live revocation entry, succeeds and
reproduces tenant_id, document_id, link_id, permissions and
require_email (and the jti and expiry) exactly. -/
theorem share_token_roundtrip (a : JWTTokenAdapter)
    (tenant_id document_id link_id jti : String) (expires_at : Int)
    (permissions : PyDict Bool) (require_email : Bool) (now : Int)
    (hexp : now < expires_at)
    (hrev : PyDict.contains (purgeLedger a.revoked_jtis now) jti = false) :
    (a.decode_share_token
        (a.encode_share_token tenant_id document_id link_id jti expires_at
          permissions require_email) now).1
      = Except.ok
          { sub := document_id, tid := tenant_id, lid := link_id, jti := jti,
            exp := expires_at, perms := permissions,
            require_email := require_email } := by
  have hnle : ¬ expires_at ≤ now := not_le.mpr hexp
  simp [JWTTokenAdapter.decode_share_token, JWTTokenAdapter.encode_share_token,
    jwtDecode, hnle, hrev]

/-- Witness for C4: a concrete token minted at expiry 100 decodes at
time 50 against an empty ledger to its own claims. -/
theorem share_token_roundtrip_witness :
    (JWTTokenAdapter.decode_share_token ⟨"sec", []⟩
        (JWTTokenAdapter.encode_share_token ⟨"sec", []⟩ "ten_1" "doc_9" "lnk_4"
          "jti_7" 100 [("download", true)] true) 50).1
      = Except.ok
          { sub := "doc_9", tid := "ten_1", lid := "lnk_4", jti := "jti_7",
            exp := 100, perms := [("download", true)], require_email := true } :=
  share_token_roundtrip ⟨"sec", []⟩ "ten_1" "doc_9" "lnk_4" "jti_7" 100
    [("download", true)] true 50 (by decide) (by decide)

/-- Claim C6: a decode failure caused by revocation carries the revoked
error kind, and that kind differs from the expired, malformed and
signature-invalid kinds, so a caller can report a revoked link
specifically. -/
theorem revoked_error_distinct (a : JWTTokenAdapter) (p : SharePayload) (now : Int)
    (hexp : now < p.exp)
    (hrev : PyDict.contains (purgeLedger a.revoked_jtis now) p.jti = true) :
    (a.decode_share_token (Token.signed p a.secret) now).1
        = Except.error JwtError.revoked
    ∧ (JwtError.revoked == JwtError.expired) = false
    ∧ (JwtError.revoked == JwtError.malformed) = false
    ∧ (JwtError.revoked == JwtError.signatureInvalid) = false := by
  have hnle : ¬ p.exp ≤ now := not_le.mpr hexp
  refine ⟨?_, by decide, by decide, by decide⟩
  simp [JWTTokenAdapter.decode_share_token, jwtDecode, hnle, hrev]

/-- Witness for C6: decoding with a live ledger entry for the token jti
produces the revoked kind. -/
theorem revoked_error_distinct_witness :
    (JWTTokenAdapter.decode_share_token ⟨"sec", [("jti_7", 100)]⟩
        (Token.signed testPayload "sec") 50).1 = Except.error JwtError.revoked :=
  (revoked_error_distinct ⟨"sec", [("jti_7", 100)]⟩ testPayload 50
    (by decide) (by decide)).1

/-- Claim C5, counterexample: on HTTP 403 with body allow=false,
reason="scope_missing", the strategy raises AccessDenied with the
locally built reason "PDP error: 403", not the remote-supplied
"scope_missing" the claim requires. -/
theorem pdp_scope_missing_counterexample :
    PDPAccessControl.handleResponse scenarioCResponse
        = Except.error (PyExc.accessDenied "PDP error: 403")
    ∧ ("PDP error: 403" == "scope_missing") = false := by
  decide

/-- Claim C5 as amended: a status of 400 or above fails with AccessDenied
carrying the local string "PDP error: " followed by the status, without
reading the body; below 400, an allow=false body fails with AccessDenied
carrying the remote-supplied reason (default "forbidden"); below 400
with allow=true the normalized remote principal is returned. -/
theorem pdp_status_check_amended (resp : HttpResponse) :
    (400 ≤ resp.status →
      PDPAccessControl.handleResponse resp
        = Except.error (PyExc.accessDenied ("PDP error: " ++ toString resp.status)))
    ∧ (resp.status < 400 → resp.body.allow = false →
      PDPAccessControl.handleResponse resp
        = Except.error (PyExc.accessDenied (pyOrReason resp.body.reason)))
    ∧ (resp.status < 400 → resp.body.allow = true →
      PDPAccessControl.handleResponse resp
        = Except.ok (PDPAccessControl.normalizePrincipal
            (pyOrPdpPrincipal resp.body.principal))) := by
  refine ⟨?_, ?_, ?_⟩
  · intro h
    simp [PDPAccessControl.handleResponse, h]
  · intro h hallow
    simp [PDPAccessControl.handleResponse, not_le.mpr h, hallow]
  · intro h hallow
    simp [PDPAccessControl.handleResponse, not_le.mpr h, hallow]

/-- Witness for the amended C5: the 403 scenario takes the status branch
and yields the local reason string. -/
theorem pdp_status_check_amended_witness :
    PDPAccessControl.handleResponse scenarioCResponse
      = Except.error (PyExc.accessDenied "PDP error: 403") :=
  ((pdp_status_check_amended scenarioCResponse).1 (by decide)).trans (by decide)

/-- Claim C10: every decode failure of the share-token dependency,
revocation included, maps to the same HTTPException 401 with detail
"Invalid or expired share token"; a successful decode fills the claims
dataclass from the tid, sub, lid, jti, exp, perms and require_email
fields of the payload. -/
theorem share_token_dependency_uniform_401 (a : JWTTokenAdapter) (token : Token)
    (now : Int) :
    (∀ e, (a.decode_share_token token now).1 = Except.error e →
      ShareTokenDependency.call a token now
        = Except.error { status_code := 401, detail := "Invalid or expired share token" })
    ∧ (∀ c, (a.decode_share_token token now).1 = Except.ok c →
      ShareTokenDependency.call a token now
        = Except.ok
            { tenant_id := pyStrOrNone c.tid,
              document_id := pyStrOrNone c.sub,
              link_id := pyStrOrNone c.lid,
              jti := c.jti,
              expires_at := c.exp,
              permissions := c.perms,
              require_email := c.require_email,
              email := none }) := by
  constructor
  · intro e he
    simp [ShareTokenDependency.call, he]
  · intro c hc
    simp [ShareTokenDependency.call, hc]

/-- Witness for C10: the revoked decode failure surfaces as the same
generic 401 as every other failure. -/
theorem share_token_dependency_uniform_401_witness :
    ShareTokenDependency.call ⟨"sec", [("jti_7", 100)]⟩
        (Token.signed testPayload "sec") 50
      = Except.error { status_code := 401, detail := "Invalid or expired share token" } :=
  (share_token_dependency_uniform_401 ⟨"sec", [("jti_7", 100)]⟩
      (Token.signed testPayload "sec") 50).1 JwtError.revoked (by decide)

end HexShare
